import Mathlib

/-!
Verification of the BIDS conversion core of `clinica/bids/bids_utils.py`.

The Python functions are shallowly embedded as Lean functions.  Filesystem
interaction is abstracted: glob results become explicit lists of path
strings, file contents become `List Char`, and side effects (copies,
renames, external tool invocations) are recorded as output-file name lists
in result structures.  Python's heterogeneous sentinel returns (`-1`, `0`,
a string, `None`) become inductive result types, with one constructor per
distinct Python outcome; an uncaught Python exception (the bare `raise` in
`convert_flair`, the `IndexError` on an empty glob) is a dedicated
constructor as well.
-/

/-- Decides whether the first character list is an initial segment of the
second (the comparison Python performs at each starting offset of a
substring test). -/
def leadsWith : List Char → List Char → Bool
  | [], _ => true
  | _ :: _, [] => false
  | a :: as, b :: bs => a == b && leadsWith as bs

/-- Decides whether `t` occurs as a contiguous subsequence of `s`: the
semantics of Python's `t in s` on strings. -/
def containsSub (t : List Char) : List Char → Bool
  | [] => leadsWith t []
  | c :: rest => leadsWith t (c :: rest) || containsSub t rest

/-- Python's substring test `t in s`, lifted to Lean strings. -/
def strContains (t s : String) : Bool :=
  containsSub t.data s.data

/-- Last path component of a `/`-separated path: the model of
`s.split(os.sep)[-1]` used throughout `bids_utils.py`. -/
def basenameAux : List Char → List Char → List Char
  | [], acc => acc.reverse
  | c :: rest, acc => if c = '/' then basenameAux rest [] else basenameAux rest (c :: acc)

/-- Model of `s.split(os.sep)[-1]` (POSIX separator). -/
def basename (s : String) : String :=
  String.mk (basenameAux s.data [])

/-- The rescan marker test `'rescan' in s` from `remove_rescan`
(`bids_utils.py`, line 24); case-sensitive by construction. -/
def hasRescan (s : String) : Bool :=
  strContains "rescan" s

/-- Embedding of `remove_rescan` (`bids_utils.py`, lines 11-29): the list
comprehension `[s for s in list_path if 'rescan' not in s]`.  The warning
log emitted per removed entry does not affect the returned list. -/
def remove_rescan (list_path : List String) : List String :=
  list_path.filter (fun s => !(hasRescan s))

/-- Embedding of `get_bids_suff` (`bids_utils.py`, lines 63-83): the
modality-to-suffix dictionary; an absent key (Python `KeyError`) is
`none`. -/
def get_bids_suff (mod : String) : Option String :=
  List.lookup mod
    [("T1", "_T1w"), ("T2", "_T2w"), ("Flair", "_FLAIR"),
     ("SingleMapPh", "_phasediff"), ("MultiMapPh", "_phase"),
     ("Map", "_magnitude"), ("fMRI", "_bold"), ("dwi", "_dwi")]

lemma count_filter_not (p : String → Bool) (l : List String) (s : String) :
    List.count s (l.filter (fun x => !(p x))) =
      if p s then 0 else List.count s l := by
  by_cases hps : p s = true
  · rw [if_pos hps]
    refine List.count_eq_zero.mpr ?_
    intro hmem
    have hs := (List.mem_filter.mp hmem).2
    simp [hps] at hs
  · have hps' : p s = false := by simpa using hps
    rw [if_neg hps]
    exact List.count_filter (by simp [hps'])

lemma filter_eq_self_of (p : String → Bool) (l : List String)
    (h : ∀ s ∈ l, p s = false) : l.filter (fun x => !(p x)) = l := by
  induction l with
  | nil => rfl
  | cons a t ih =>
    have ha := h a (by simp)
    simp [List.filter_cons, ha, ih (fun s hs => h s (by simp [hs]))]

/-- C8: `remove_rescan` drops exactly the entries whose path contains the
substring `"rescan"` (each surviving entry keeps its multiplicity), keeps
the relative order of survivors (the result is a sublist of the input),
and removes nothing when no entry carries the marker. -/
theorem remove_rescan_filters (l : List String) :
    List.Sublist (remove_rescan l) l ∧
    (∀ s, List.count s (remove_rescan l) =
      if hasRescan s then 0 else List.count s l) ∧
    ((∀ s ∈ l, hasRescan s = false) → remove_rescan l = l) := by
  refine ⟨List.filter_sublist l, ?_, ?_⟩
  · intro s
    exact count_filter_not hasRescan l s
  · intro h
    exact filter_eq_self_of hasRescan l h

/-- C8 witness: concrete evaluation on a list with one rescan entry. -/
theorem remove_rescan_filters_witness :
    List.Sublist (remove_rescan ["sub/T1_rescan", "sub/T1_a", "sub/T1_b"])
        ["sub/T1_rescan", "sub/T1_a", "sub/T1_b"] ∧
    (∀ s, List.count s (remove_rescan ["sub/T1_rescan", "sub/T1_a", "sub/T1_b"]) =
      if hasRescan s then 0
      else List.count s ["sub/T1_rescan", "sub/T1_a", "sub/T1_b"]) ∧
    ((∀ s ∈ ["sub/T1_rescan", "sub/T1_a", "sub/T1_b"], hasRescan s = false) →
      remove_rescan ["sub/T1_rescan", "sub/T1_a", "sub/T1_b"] =
        ["sub/T1_rescan", "sub/T1_a", "sub/T1_b"]) :=
  remove_rescan_filters ["sub/T1_rescan", "sub/T1_a", "sub/T1_b"]

/-- Result of `choose_correction` (`bids_utils.py`, lines 32-60).  Python
returns `-1` when the modality is missing, the single candidate's base
filename when exactly one candidate exists, a priority token when one
matches, and `0` when no token matches. -/
inductive CorrectionChoice where
  | missing
  | chosenFile (s : String)
  | chosenToken (t : String)
  | noPreferred
deriving DecidableEq

/-- The test `any(to_consider[i] in c for c in correction_list)` from
`choose_correction` (`bids_utils.py`, line 58). -/
def has_match (cl : List String) (t : String) : Bool :=
  cl.any (fun c => strContains t c)

/-- Embedding of `choose_correction` (`bids_utils.py`, lines 32-60).  The
glob `glob(path.flatten(dir, '*' + mod + '*'))` is abstracted as the input
list `globbed` of matched paths; the function then rescan-filters it and
selects as the source does. -/
def choose_correction (globbed : List String) (to_consider : List String) :
    CorrectionChoice :=
  match remove_rescan globbed with
  | [] => CorrectionChoice.missing
  | [c] => CorrectionChoice.chosenFile (basename c)
  | cl =>
    match to_consider.find? (fun t => has_match cl t) with
    | some t => CorrectionChoice.chosenToken t
    | none => CorrectionChoice.noPreferred

/-- C6: with exactly one rescan-filtered candidate, `choose_correction`
returns that candidate's base filename whatever the priority list holds;
with no candidate it returns the modality-missing sentinel (`-1`). -/
theorem choose_correction_single_or_missing (globbed to_consider : List String)
    (c : String) :
    (remove_rescan globbed = [c] →
      choose_correction globbed to_consider = CorrectionChoice.chosenFile (basename c)) ∧
    (remove_rescan globbed = [] →
      choose_correction globbed to_consider = CorrectionChoice.missing) := by
  constructor
  · intro h
    simp [choose_correction, h]
  · intro h
    simp [choose_correction, h]

/-- C6 witness: a single candidate under a non-empty priority list. -/
theorem choose_correction_single_or_missing_witness :
    (remove_rescan ["data/sub/B0MAP_S01"] = ["data/sub/B0MAP_S01"] →
      choose_correction ["data/sub/B0MAP_S01"] ["GRADIENT", "B0"] =
        CorrectionChoice.chosenFile (basename "data/sub/B0MAP_S01")) ∧
    (remove_rescan ["data/sub/B0MAP_S01"] = [] →
      choose_correction ["data/sub/B0MAP_S01"] ["GRADIENT", "B0"] =
        CorrectionChoice.missing) :=
  choose_correction_single_or_missing ["data/sub/B0MAP_S01"] ["GRADIENT", "B0"]
    "data/sub/B0MAP_S01"

lemma find_first_in_append (p : String → Bool) (pre post : List String)
    (t : String) (hpre : ∀ u ∈ pre, p u = false) (ht : p t = true) :
    List.find? p (pre ++ t :: post) = some t := by
  induction pre with
  | nil => simp [List.find?, ht]
  | cons a as ih =>
    have ha : p a = false := hpre a (by simp)
    rw [List.cons_append, List.find?]
    rw [ha]
    exact ih (fun u hu => hpre u (by simp [hu]))

/-- C7: with at least two rescan-filtered candidates, `choose_correction`
scans the priority list in order and returns the first token contained in
some candidate path, regardless of candidate order; when no token matches
any candidate it returns the no-preferred-correction sentinel (`0`). -/
theorem choose_correction_priority_order (globbed to_consider : List String)
    (c1 c2 : String) (rest : List String)
    (hcl : remove_rescan globbed = c1 :: c2 :: rest) :
    (∀ pre t post, to_consider = pre ++ t :: post →
      (∀ u ∈ pre, has_match (c1 :: c2 :: rest) u = false) →
      has_match (c1 :: c2 :: rest) t = true →
      choose_correction globbed to_consider = CorrectionChoice.chosenToken t) ∧
    ((∀ u ∈ to_consider, has_match (c1 :: c2 :: rest) u = false) →
      choose_correction globbed to_consider = CorrectionChoice.noPreferred) := by
  constructor
  · intro pre t post hto hpre ht
    have hfind : to_consider.find? (fun u => has_match (c1 :: c2 :: rest) u) = some t := by
      rw [hto]
      exact find_first_in_append _ pre post t hpre ht
    simp [choose_correction, hcl, hfind]
  · intro hnone
    have hfind : to_consider.find? (fun u => has_match (c1 :: c2 :: rest) u) = none := by
      rw [List.find?_eq_none]
      intro u hu
      simp [hnone u hu]
    simp [choose_correction, hcl, hfind]

/-- C7 witness: two candidates where the second priority token matches the
first candidate and the first priority token matches the second candidate;
the earlier token wins. -/
theorem choose_correction_priority_order_witness :
    (∀ pre t post, ["GRADIENT", "B0"] = pre ++ t :: post →
      (∀ u ∈ pre, has_match ["d/B0MAP_S01", "d/GRADIENTMAP_S02"] u = false) →
      has_match ["d/B0MAP_S01", "d/GRADIENTMAP_S02"] t = true →
      choose_correction ["d/B0MAP_S01", "d/GRADIENTMAP_S02"] ["GRADIENT", "B0"] =
        CorrectionChoice.chosenToken t) ∧
    ((∀ u ∈ ["GRADIENT", "B0"], has_match ["d/B0MAP_S01", "d/GRADIENTMAP_S02"] u = false) →
      choose_correction ["d/B0MAP_S01", "d/GRADIENTMAP_S02"] ["GRADIENT", "B0"] =
        CorrectionChoice.noPreferred) :=
  choose_correction_priority_order ["d/B0MAP_S01", "d/GRADIENTMAP_S02"]
    ["GRADIENT", "B0"] "d/B0MAP_S01" "d/GRADIENTMAP_S02" [] (by rfl)

/-- Outcome of `convert_flair` (`bids_utils.py`, lines 186-214) on its
default path (`fixed_file = False`).  `copied src dst` models the
`copy(flair_path, ...)` call; `missing` models `return -1`; `aborted`
models the bare `raise` after the multiple-FLAIR warning; `indexError`
models the `IndexError` of `glob(...)[0]` when the matched folder holds no
`.nii.gz` file. -/
inductive FlairResult where
  | copied (src dst : String)
  | missing
  | aborted
  | indexError
deriving DecidableEq

/-- Embedding of `convert_flair` (`bids_utils.py`, lines 186-214) with
`fixed_file = False`.  `listPath` stands for
`glob(path.flatten(folder_input, '*T2FLAIR*'))` and `contents f` for
`glob(path.flatten(f, '*.nii.gz*'))`.  The `os.mkdir` side effect is dropped;
the copy destination name `name + get_bids_suff('Flair') + '.nii.gz'` is
recorded in the result. -/
def convert_flair (listPath : List String) (contents : String → List String)
    (name : String) : FlairResult :=
  match remove_rescan listPath with
  | [f] =>
    match contents f with
    | [] => FlairResult.indexError
    | src :: _ =>
      FlairResult.copied src (name ++ (get_bids_suff "Flair").getD "" ++ ".nii.gz")
  | [] => FlairResult.missing
  | _ => FlairResult.aborted

/-- C5: `convert_flair` without a fixed override treats missing and
ambiguous inputs asymmetrically: zero rescan-filtered candidates yield the
recoverable missing sentinel (`return -1`, a value, not an exception);
exactly one candidate copies its first `.nii.gz` file to the canonical
`<name>_FLAIR.nii.gz` destination; two or more candidates abort the run
(the bare `raise`). -/
theorem convert_flair_cardinality (listPath : List String)
    (contents : String → List String) (name : String) :
    (remove_rescan listPath = [] →
      convert_flair listPath contents name = FlairResult.missing) ∧
    (∀ f src rest, remove_rescan listPath = [f] → contents f = src :: rest →
      convert_flair listPath contents name =
        FlairResult.copied src (name ++ "_FLAIR.nii.gz")) ∧
    (∀ f g rest, remove_rescan listPath = f :: g :: rest →
      convert_flair listPath contents name = FlairResult.aborted) := by
  refine ⟨?_, ?_, ?_⟩
  · intro h
    simp [convert_flair, h]
  · intro f src rest hf hc
    have hsuff : (get_bids_suff "Flair").getD "" = "_FLAIR" := by decide
    simp [convert_flair, hf, hc, hsuff, String.append_assoc]
  · intro f g rest hf
    simp [convert_flair, hf]

/-- C5 witness: one candidate folder containing one `.nii.gz` file. -/
theorem convert_flair_cardinality_witness :
    convert_flair ["in/T2FLAIR_S05"]
        (fun f => if f = "in/T2FLAIR_S05" then ["in/T2FLAIR_S05/x.nii.gz"] else [])
        "sub-01_ses-M00" =
      FlairResult.copied "in/T2FLAIR_S05/x.nii.gz" "sub-01_ses-M00_FLAIR.nii.gz" :=
  (convert_flair_cardinality ["in/T2FLAIR_S05"]
      (fun f => if f = "in/T2FLAIR_S05" then ["in/T2FLAIR_S05/x.nii.gz"] else [])
      "sub-01_ses-M00").2.1 "in/T2FLAIR_S05" "in/T2FLAIR_S05/x.nii.gz" []
    (by decide) (by decide)

/-- The hardcoded denylist `files_to_skip` of `convert_fieldmap`
(`bids_utils.py`, lines 132-134). -/
def files_to_skip : List String :=
  ["13001PBA20150623M18B0MAPph_S016.nii.gz",
   "13002PRJ20150922M18B0MAPph_S014.nii.gz",
   "11001PGM20130704M00B0MAPph_S010.bval",
   "07002PPP20150116M18B0MAPph_S009.nii.gz",
   "07003PGM20141217M18B0MAPph_S010.nii.gz"]

/-- Abstract input of `convert_fieldmap` (`bids_utils.py`, lines 101-183):
`mapFiles` and `mapPhFiles` are the (already rescan-filtered or fixed)
glob results for the magnitude (`*MAP_*`) and phase (`*MAPph_*`)
candidates; `dimMap` and `dimMapPh` are the header fields `dim[4]` that
`nib.load` reads from the first file of each list (only consulted when
both lists are non-empty). -/
structure FieldmapData where
  mapFiles : List String
  mapPhFiles : List String
  dimMap : Nat
  dimMapPh : Nat
deriving DecidableEq

/-- Observable outcome of `convert_fieldmap`: whether
`os.mkdir(folder_output)` ran, the names of the files left in the output
folder after all copies, `fslsplit` runs and renames, and the Python
return value (`some (-1)`, `some 0`, or `none` for falling off the end). -/
structure FieldmapOutcome where
  dirCreated : Bool
  outFiles : List String
  ret : Option Int
deriving DecidableEq

/-- Embedding of `convert_fieldmap` (`bids_utils.py`, lines 101-183).
With both candidate lists non-empty and neither selected basename
denylisted, the output directory is created and the `dim[4]` pair selects
the layout: `(1, > 0)` copies the phase file to `<name>_phasediff.nii.gz`
and splits the magnitude into `dimMap` volumes renamed
`<name>_magnitude1..N.nii.gz`; `(2, 2)` splits both series and renames the
`0000`/`0001` outputs to suffixes `1`/`2`; anything else leaves the fresh
directory empty.  With a candidate list empty, no directory or file is
produced and the sentinel (`-1` both missing, `0` one missing) is
returned. -/
def convert_fieldmap (d : FieldmapData) (name : String) : FieldmapOutcome :=
  match d.mapFiles, d.mapPhFiles with
  | [], [] => ⟨false, [], some (-1)⟩
  | [], _ :: _ => ⟨false, [], some 0⟩
  | _ :: _, [] => ⟨false, [], some 0⟩
  | m :: _, p :: _ =>
    if files_to_skip.contains (basename p) || files_to_skip.contains (basename m) then
      ⟨false, [], none⟩
    else if d.dimMapPh = 1 ∧ 0 < d.dimMap then
      ⟨true,
       (name ++ (get_bids_suff "SingleMapPh").getD "" ++ ".nii.gz") ::
         (List.range d.dimMap).map
           (fun i => name ++ (get_bids_suff "Map").getD "" ++ toString (i + 1) ++ ".nii.gz"),
       none⟩
    else if d.dimMapPh = 2 ∧ d.dimMap = 2 then
      ⟨true,
       [name ++ (get_bids_suff "MultiMapPh").getD "" ++ "1.nii.gz",
        name ++ (get_bids_suff "MultiMapPh").getD "" ++ "2.nii.gz",
        name ++ (get_bids_suff "Map").getD "" ++ "1.nii.gz",
        name ++ (get_bids_suff "Map").getD "" ++ "2.nii.gz"],
       none⟩
    else
      ⟨true, [], none⟩

/-- C2: with a magnitude and a phase candidate present and neither
denylisted, the behaviour of `convert_fieldmap` is decided by the
`dim[4]` pair alone: `(phase = 1, magnitude > 0)` yields exactly one
phasediff file plus `dimMap` sequentially numbered magnitude files;
`(2, 2)` yields exactly two phase and two magnitude files with suffixes
`1` and `2`; every other combination yields no output file and no
error. -/
theorem convert_fieldmap_layout_cases (d : FieldmapData) (name : String)
    (m p : String) (ms ps : List String)
    (hm : d.mapFiles = m :: ms) (hp : d.mapPhFiles = p :: ps)
    (hskip1 : files_to_skip.contains (basename p) = false)
    (hskip2 : files_to_skip.contains (basename m) = false) :
    (d.dimMapPh = 1 ∧ 0 < d.dimMap →
      convert_fieldmap d name =
        ⟨true,
         (name ++ "_phasediff.nii.gz") ::
           (List.range d.dimMap).map
             (fun i => name ++ "_magnitude" ++ toString (i + 1) ++ ".nii.gz"),
         none⟩) ∧
    (d.dimMapPh = 2 ∧ d.dimMap = 2 →
      convert_fieldmap d name =
        ⟨true,
         [name ++ "_phase1.nii.gz", name ++ "_phase2.nii.gz",
          name ++ "_magnitude1.nii.gz", name ++ "_magnitude2.nii.gz"],
         none⟩) ∧
    (¬(d.dimMapPh = 1 ∧ 0 < d.dimMap) → ¬(d.dimMapPh = 2 ∧ d.dimMap = 2) →
      convert_fieldmap d name = ⟨true, [], none⟩) := by
  have hph : (get_bids_suff "SingleMapPh").getD "" = "_phasediff" := by decide
  have hmag : (get_bids_suff "Map").getD "" = "_magnitude" := by decide
  have hmph : (get_bids_suff "MultiMapPh").getD "" = "_phase" := by decide
  have hn1 : basename p ∉ files_to_skip := by simpa using hskip1
  have hn2 : basename m ∉ files_to_skip := by simpa using hskip2
  refine ⟨?_, ?_, ?_⟩
  · intro hdim
    simp [convert_fieldmap, hm, hp, hn1, hn2, hdim, hph, hmag,
      String.append_assoc]
  · intro hdim
    have h1 : ¬(d.dimMapPh = 1 ∧ 0 < d.dimMap) := by omega
    simp [convert_fieldmap, hm, hp, hn1, hn2, hdim, h1, hmph, hmag,
      String.append_assoc]
  · intro h1 h2
    simp [convert_fieldmap, hm, hp, hn1, hn2, h1, h2]

/-- C2 witness: a `(magnitude dim 3, phase dim 1)` input produces one
phasediff file and three numbered magnitude files. -/
theorem convert_fieldmap_layout_cases_witness :
    convert_fieldmap ⟨["in/B0MAP_S01/m.nii.gz"], ["in/B0MAPph_S02/p.nii.gz"], 3, 1⟩
        "sub-01" =
      ⟨true,
       ("sub-01" ++ "_phasediff.nii.gz") ::
         (List.range 3).map
           (fun i => "sub-01" ++ "_magnitude" ++ toString (i + 1) ++ ".nii.gz"),
       none⟩ :=
  (convert_fieldmap_layout_cases
      ⟨["in/B0MAP_S01/m.nii.gz"], ["in/B0MAPph_S02/p.nii.gz"], 3, 1⟩ "sub-01"
      "in/B0MAP_S01/m.nii.gz" "in/B0MAPph_S02/p.nii.gz" [] []
      rfl rfl (by decide) (by decide)).1 (by exact ⟨rfl, by decide⟩)

/-- C9: when the selected magnitude or phase basename is denylisted,
`convert_fieldmap` performs no conversion: no output directory, no output
file, and the fall-through `None` return (no error). -/
theorem convert_fieldmap_denylist_skip (d : FieldmapData) (name : String)
    (m p : String) (ms ps : List String)
    (hm : d.mapFiles = m :: ms) (hp : d.mapPhFiles = p :: ps)
    (hskip : files_to_skip.contains (basename p) = true ∨
      files_to_skip.contains (basename m) = true) :
    convert_fieldmap d name = ⟨false, [], none⟩ := by
  have hb : (files_to_skip.contains (basename p) ||
      files_to_skip.contains (basename m)) = true := by
    rcases hskip with h | h <;> simp [h]
    · exact Or.inl (by simpa using h)
    · exact Or.inr (by simpa using h)
  simp only [convert_fieldmap, hm, hp]
  rw [if_pos (by simpa using hb)]

/-- C9 witness: the phase candidate resolves to the first denylisted
filename; nothing is produced. -/
theorem convert_fieldmap_denylist_skip_witness :
    convert_fieldmap
        ⟨["in/B0MAP_S01/m.nii.gz"],
         ["in/B0MAPph_S16/13001PBA20150623M18B0MAPph_S016.nii.gz"], 3, 1⟩
        "sub-01" = ⟨false, [], none⟩ :=
  convert_fieldmap_denylist_skip
    ⟨["in/B0MAP_S01/m.nii.gz"],
     ["in/B0MAPph_S16/13001PBA20150623M18B0MAPph_S016.nii.gz"], 3, 1⟩
    "sub-01" "in/B0MAP_S01/m.nii.gz"
    "in/B0MAPph_S16/13001PBA20150623M18B0MAPph_S016.nii.gz" [] []
    rfl rfl (Or.inl (by decide))

/-- C10: whenever both candidate sets are non-empty, `convert_fieldmap`
returns `None` — whether it converted, skipped a denylisted file, or hit
an unsupported dimension pair — so the caller cannot tell these apart from
the return value; the missing/incomplete branches alone return the
distinct sentinels `-1` (both sets empty) and `0` (exactly one empty). -/
theorem convert_fieldmap_return_opacity (d : FieldmapData) (name : String) :
    (d.mapFiles ≠ [] → d.mapPhFiles ≠ [] → (convert_fieldmap d name).ret = none) ∧
    (d.mapFiles = [] → d.mapPhFiles = [] →
      (convert_fieldmap d name).ret = some (-1)) ∧
    (d.mapFiles = [] → d.mapPhFiles ≠ [] →
      (convert_fieldmap d name).ret = some 0) ∧
    (d.mapFiles ≠ [] → d.mapPhFiles = [] →
      (convert_fieldmap d name).ret = some 0) := by
  refine ⟨?_, ?_, ?_, ?_⟩ <;> intro h1 h2
  · match hm : d.mapFiles, hp : d.mapPhFiles with
    | [], _ => exact absurd hm h1
    | _ :: _, [] => exact absurd hp h2
    | m :: ms, p :: ps =>
      simp only [convert_fieldmap, hm, hp]
      split
      · rfl
      · split
        · rfl
        · split <;> rfl
  · simp [convert_fieldmap, h1, h2]
  · match hp : d.mapPhFiles with
    | [] => exact absurd hp h2
    | p :: ps => simp [convert_fieldmap, h1, hp]
  · match hm : d.mapFiles with
    | [] => exact absurd hm h1
    | m :: ms => simp [convert_fieldmap, hm, h2]

/-- C10 witness: a denylisted complete input returns `None`, exactly like
a successfully converted one. -/
theorem convert_fieldmap_return_opacity_witness :
    (["in/B0MAP_S01/m.nii.gz"] ≠ ([] : List String) →
      ["in/B0MAPph_S16/13001PBA20150623M18B0MAPph_S016.nii.gz"] ≠ ([] : List String) →
      (convert_fieldmap
          ⟨["in/B0MAP_S01/m.nii.gz"],
           ["in/B0MAPph_S16/13001PBA20150623M18B0MAPph_S016.nii.gz"], 3, 1⟩
          "sub-01").ret = none) ∧
    (["in/B0MAP_S01/m.nii.gz"] = ([] : List String) →
      ["in/B0MAPph_S16/13001PBA20150623M18B0MAPph_S016.nii.gz"] = ([] : List String) →
      (convert_fieldmap
          ⟨["in/B0MAP_S01/m.nii.gz"],
           ["in/B0MAPph_S16/13001PBA20150623M18B0MAPph_S016.nii.gz"], 3, 1⟩
          "sub-01").ret = some (-1)) ∧
    (["in/B0MAP_S01/m.nii.gz"] = ([] : List String) →
      ["in/B0MAPph_S16/13001PBA20150623M18B0MAPph_S016.nii.gz"] ≠ ([] : List String) →
      (convert_fieldmap
          ⟨["in/B0MAP_S01/m.nii.gz"],
           ["in/B0MAPph_S16/13001PBA20150623M18B0MAPph_S016.nii.gz"], 3, 1⟩
          "sub-01").ret = some 0) ∧
    (["in/B0MAP_S01/m.nii.gz"] ≠ ([] : List String) →
      ["in/B0MAPph_S16/13001PBA20150623M18B0MAPph_S016.nii.gz"] = ([] : List String) →
      (convert_fieldmap
          ⟨["in/B0MAP_S01/m.nii.gz"],
           ["in/B0MAPph_S16/13001PBA20150623M18B0MAPph_S016.nii.gz"], 3, 1⟩
          "sub-01").ret = some 0) :=
  convert_fieldmap_return_opacity
    ⟨["in/B0MAP_S01/m.nii.gz"],
     ["in/B0MAPph_S16/13001PBA20150623M18B0MAPph_S016.nii.gz"], 3, 1⟩
    "sub-01"

/-- A file in a DTI acquisition folder: its name (as listed by `glob`) and
its text content as a character list. -/
structure SrcFile where
  name : String
  content : List Char
deriving DecidableEq

/-- One DWI candidate folder as `merge_DTI` (`bids_utils.py`, lines
243-301) sees it: the folder path and the glob results for `*.nii*`,
`*.bval` and `*.bvec` inside it, in enumeration order. -/
structure DTIFolder where
  path : String
  niiFiles : List SrcFile
  bvalFiles : List SrcFile
  bvecFiles : List SrcFile
deriving DecidableEq

/-- Python `readlines` semantics: split a text after each newline, the
final segment (if any) kept without a terminator.  `fileinput` yields
exactly these lines. -/
def pyLines : List Char → List (List Char)
  | [] => []
  | c :: rest =>
    if c = '\n' then [c] :: pyLines rest
    else
      match pyLines rest with
      | [] => [[c]]
      | l :: ls => (c :: l) :: ls

/-- Accumulated state of the folder loop of `merge_DTI` (`bids_utils.py`,
lines 276-282): the appended `img`, `bval`, `bvec` selections and the
`incomp_folders` list. -/
structure ScanAcc where
  imgs : List SrcFile
  bvals : List SrcFile
  bvecs : List SrcFile
  incomplete : List String
deriving DecidableEq

/-- The folder loop of `merge_DTI` (`bids_utils.py`, lines 276-282).  A
folder with at least one `.bval` and at least one `.bvec` match
contributes `glob('*.nii*')[0]`, `glob('*.bval')[0]` and
`glob('*.bvec')[0]`; when its `*.nii*` glob is empty that subscript raises
`IndexError`, modelled as `Except.error` carrying the folder path.  Any
other folder is appended to `incomp_folders`. -/
def scanDTI : List DTIFolder → Except String ScanAcc
  | [] => Except.ok ⟨[], [], [], []⟩
  | f :: rest =>
    match f.bvalFiles, f.bvecFiles with
    | bv :: _, bc :: _ =>
      match f.niiFiles with
      | [] => Except.error f.path
      | nii :: _ =>
        match scanDTI rest with
        | Except.error e => Except.error e
        | Except.ok acc =>
          Except.ok ⟨nii :: acc.imgs, bv :: acc.bvals, bc :: acc.bvecs, acc.incomplete⟩
    | _, _ =>
      match scanDTI rest with
      | Except.error e => Except.error e
      | Except.ok acc => Except.ok ⟨acc.imgs, acc.bvals, acc.bvecs, f.path :: acc.incomplete⟩

/-- The merged sidecar text produced by `for line in fileinput.input(fs):
fout.write(line)` (`bids_utils.py`, lines 287-298): every line of every
file, in file order. -/
def writeLines (fs : List SrcFile) : List Char :=
  (fs.map (fun f => (pyLines f.content).flatten)).flatten

/-- The merged artifacts of a successful `merge_DTI`: output basename
(`name + '_dwi'`), merged `.bval` and `.bvec` texts, and the image paths
passed to `fslmerge -t`, in order. -/
structure MergedOut where
  outBase : String
  bvalContent : List Char
  bvecContent : List Char
  imgs : List String
deriving DecidableEq

/-- Outcome of `merge_DTI`: `noDTI` models `return -1`; `crash f` the
uncaught `IndexError` while processing folder `f`; `ok merged ret` a run
of the loop, with `merged` the written artifacts (`none` when no complete
triplet existed) and `ret` the Python return value (`some incomp` when
`incomp_folders` was non-empty, else `None`). -/
inductive MergeResult where
  | noDTI
  | crash (folder : String)
  | ok (merged : Option MergedOut) (ret : Option (List String))
deriving DecidableEq

/-- Embedding of `merge_DTI` (`bids_utils.py`, lines 243-301).  `dtiList`
stands for the candidate folders (the fixed list, or the rescan-filtered
`*DTI*` glob), in discovery order. -/
def merge_DTI (dtiList : List DTIFolder) (name : String) : MergeResult :=
  if dtiList.isEmpty then MergeResult.noDTI
  else
    match scanDTI dtiList with
    | Except.error f => MergeResult.crash f
    | Except.ok acc =>
      MergeResult.ok
        (if acc.imgs.isEmpty then none
         else some ⟨name ++ (get_bids_suff "dwi").getD "",
                    writeLines acc.bvals, writeLines acc.bvecs,
                    acc.imgs.map SrcFile.name⟩)
        (if acc.incomplete.isEmpty then none else some acc.incomplete)

/-- Number of lines of a text in the `wc -l` sense: its newline count. -/
def countNL (l : List Char) : Nat :=
  l.count '\n'

lemma pyLines_join (l : List Char) : (pyLines l).flatten = l := by
  induction l with
  | nil => rfl
  | cons c rest ih =>
    by_cases hc : c = '\n'
    · subst hc
      simp [pyLines, ih]
    · rw [pyLines]
      rw [if_neg hc]
      match hrest : pyLines rest with
      | [] =>
        have : rest = [] := by
          have := ih
          rw [hrest] at this
          simpa using this.symm
        simp [this]
      | l :: ls =>
        rw [hrest] at ih
        simp only [List.flatten_cons] at ih ⊢
        simp [ih]

lemma writeLines_eq_flatten (fs : List SrcFile) :
    writeLines fs = (fs.map SrcFile.content).flatten := by
  simp [writeLines, pyLines_join]

lemma countNL_flatten (ls : List (List Char)) :
    countNL ls.flatten = (ls.map countNL).sum := by
  induction ls with
  | nil => rfl
  | cons a t ih =>
    simp only [List.flatten_cons, List.map_cons, List.sum_cons, countNL]
    rw [List.count_append]
    simp [countNL] at ih
    simp [ih]

/-- C1 (divergence witness): a DWI folder holding a `.bval` and a `.bvec`
file but no `*.nii*` image is not set aside as incomplete; the subscript
`glob(path.join(folder, '*.nii*'))[0]` raises an uncaught `IndexError`
and `merge_DTI` crashes, contrary to its own docstring ("otherwise the
folder is ignored"). -/
theorem merge_DTI_crash_missing_image :
    merge_DTI
        [⟨"in/DTI_1", [],
          [⟨"a.bval", ['0', '\n']⟩], [⟨"a.bvec", ['1', '\n']⟩]⟩]
        "sub-01" = MergeResult.crash "in/DTI_1" := by
  decide

/-- C3 counterexample: with a single complete folder and no incomplete
one, `merge_DTI` falls off the end and returns `None` (`ret = none`), not
the empty list — the two outcomes are distinguishable values. -/
theorem merge_DTI_no_incomplete_returns_none :
    merge_DTI
        [⟨"in/DTI_1", [⟨"a.nii.gz", []⟩],
          [⟨"a.bval", ['0', '\n']⟩], [⟨"a.bvec", ['1', '\n']⟩]⟩]
        "sub-01" =
      MergeResult.ok
        (some ⟨"sub-01_dwi", ['0', '\n'], ['1', '\n'], ["a.nii.gz"]⟩) none ∧
    MergeResult.ok
        (some (⟨"sub-01_dwi", ['0', '\n'], ['1', '\n'], ["a.nii.gz"]⟩ : MergedOut))
        (none : Option (List String)) ≠
      MergeResult.ok
        (some ⟨"sub-01_dwi", ['0', '\n'], ['1', '\n'], ["a.nii.gz"]⟩)
        (some []) := by
  constructor
  · decide
  · decide

/-- C3 amended: when `merge_DTI` runs the folder loop without crashing, it
returns the incomplete-folder list exactly when that list is non-empty
(even when the merge itself succeeded); with no incomplete folder it
returns `None` rather than the empty list. -/
theorem merge_DTI_incomplete_surfacing (dtiList : List DTIFolder)
    (name : String) (acc : ScanAcc)
    (h1 : dtiList ≠ []) (h2 : scanDTI dtiList = Except.ok acc) :
    (acc.incomplete = [] →
      ∃ m, merge_DTI dtiList name = MergeResult.ok m none) ∧
    (acc.incomplete ≠ [] →
      ∃ m, merge_DTI dtiList name = MergeResult.ok m (some acc.incomplete)) := by
  have hne : dtiList.isEmpty = false := by simpa using h1
  have hbase : merge_DTI dtiList name =
      MergeResult.ok
        (if acc.imgs.isEmpty then none
         else some ⟨name ++ (get_bids_suff "dwi").getD "",
                    writeLines acc.bvals, writeLines acc.bvecs,
                    acc.imgs.map SrcFile.name⟩)
        (if acc.incomplete.isEmpty then none else some acc.incomplete) := by
    simp [merge_DTI, hne, h2]
  constructor
  · intro h
    refine ⟨if acc.imgs.isEmpty then none
      else some ⟨name ++ (get_bids_suff "dwi").getD "",
                 writeLines acc.bvals, writeLines acc.bvecs,
                 acc.imgs.map SrcFile.name⟩, ?_⟩
    rw [hbase]
    congr 1
    simp [h]
  · intro h
    have hni : acc.incomplete.isEmpty = false := by simpa using h
    refine ⟨if acc.imgs.isEmpty then none
      else some ⟨name ++ (get_bids_suff "dwi").getD "",
                 writeLines acc.bvals, writeLines acc.bvecs,
                 acc.imgs.map SrcFile.name⟩, ?_⟩
    rw [hbase]
    congr 1
    simp [hni]

/-- C3 witness: three candidate folders, one lacking its `.bvec`; the run
returns exactly that one folder as incomplete. -/
theorem merge_DTI_incomplete_surfacing_witness :
    ((⟨[⟨"a.nii.gz", []⟩, ⟨"c.nii.gz", []⟩],
       [⟨"a.bval", ['0', '\n']⟩, ⟨"c.bval", ['0', '\n']⟩],
       [⟨"a.bvec", ['1', '\n']⟩, ⟨"c.bvec", ['1', '\n']⟩],
       ["in/DTI_2"]⟩ : ScanAcc).incomplete = [] →
      ∃ m, merge_DTI
          [⟨"in/DTI_1", [⟨"a.nii.gz", []⟩],
            [⟨"a.bval", ['0', '\n']⟩], [⟨"a.bvec", ['1', '\n']⟩]⟩,
           ⟨"in/DTI_2", [⟨"b.nii.gz", []⟩], [⟨"b.bval", ['0', '\n']⟩], []⟩,
           ⟨"in/DTI_3", [⟨"c.nii.gz", []⟩],
            [⟨"c.bval", ['0', '\n']⟩], [⟨"c.bvec", ['1', '\n']⟩]⟩]
          "sub-01" = MergeResult.ok m none) ∧
    ((⟨[⟨"a.nii.gz", []⟩, ⟨"c.nii.gz", []⟩],
       [⟨"a.bval", ['0', '\n']⟩, ⟨"c.bval", ['0', '\n']⟩],
       [⟨"a.bvec", ['1', '\n']⟩, ⟨"c.bvec", ['1', '\n']⟩],
       ["in/DTI_2"]⟩ : ScanAcc).incomplete ≠ [] →
      ∃ m, merge_DTI
          [⟨"in/DTI_1", [⟨"a.nii.gz", []⟩],
            [⟨"a.bval", ['0', '\n']⟩], [⟨"a.bvec", ['1', '\n']⟩]⟩,
           ⟨"in/DTI_2", [⟨"b.nii.gz", []⟩], [⟨"b.bval", ['0', '\n']⟩], []⟩,
           ⟨"in/DTI_3", [⟨"c.nii.gz", []⟩],
            [⟨"c.bval", ['0', '\n']⟩], [⟨"c.bvec", ['1', '\n']⟩]⟩]
          "sub-01" = MergeResult.ok m (some ["in/DTI_2"])) :=
  merge_DTI_incomplete_surfacing
    [⟨"in/DTI_1", [⟨"a.nii.gz", []⟩],
      [⟨"a.bval", ['0', '\n']⟩], [⟨"a.bvec", ['1', '\n']⟩]⟩,
     ⟨"in/DTI_2", [⟨"b.nii.gz", []⟩], [⟨"b.bval", ['0', '\n']⟩], []⟩,
     ⟨"in/DTI_3", [⟨"c.nii.gz", []⟩],
      [⟨"c.bval", ['0', '\n']⟩], [⟨"c.bvec", ['1', '\n']⟩]⟩]
    "sub-01"
    ⟨[⟨"a.nii.gz", []⟩, ⟨"c.nii.gz", []⟩],
     [⟨"a.bval", ['0', '\n']⟩, ⟨"c.bval", ['0', '\n']⟩],
     [⟨"a.bvec", ['1', '\n']⟩, ⟨"c.bvec", ['1', '\n']⟩],
     ["in/DTI_2"]⟩
    (by decide) (by rfl)

/-- C4: when `merge_DTI` merges at least one complete triplet, the merged
`.bval` text is the concatenation, in folder-discovery order and without
interleaving, of the contributing `.bval` file contents, so its newline
(line) count is the sum of the contributors' counts; likewise for the
merged `.bvec` text. -/
theorem merge_DTI_bval_concatenation (dtiList : List DTIFolder)
    (name : String) (acc : ScanAcc)
    (h1 : dtiList ≠ []) (h2 : scanDTI dtiList = Except.ok acc)
    (h3 : acc.imgs ≠ []) :
    (∃ r, merge_DTI dtiList name =
      MergeResult.ok
        (some ⟨name ++ "_dwi",
               (acc.bvals.map SrcFile.content).flatten,
               (acc.bvecs.map SrcFile.content).flatten,
               acc.imgs.map SrcFile.name⟩) r) ∧
    countNL ((acc.bvals.map SrcFile.content).flatten) =
      (acc.bvals.map (fun f => countNL f.content)).sum ∧
    countNL ((acc.bvecs.map SrcFile.content).flatten) =
      (acc.bvecs.map (fun f => countNL f.content)).sum := by
  have hne : dtiList.isEmpty = false := by simpa using h1
  have himg : acc.imgs.isEmpty = false := by simpa using h3
  have hdwi : (get_bids_suff "dwi").getD "" = "_dwi" := by decide
  refine ⟨⟨if acc.incomplete.isEmpty then none else some acc.incomplete, ?_⟩, ?_, ?_⟩
  · simp [merge_DTI, hne, h2, himg, hdwi, writeLines_eq_flatten]
  · rw [countNL_flatten, List.map_map]
    rfl
  · rw [countNL_flatten, List.map_map]
    rfl

/-- C4 witness: two complete folders whose `.bval` files hold one and two
lines; the merged text is their concatenation and its line count is the
sum. -/
theorem merge_DTI_bval_concatenation_witness :
    (∃ r, merge_DTI
        [⟨"in/DTI_1", [⟨"a.nii.gz", []⟩],
          [⟨"a.bval", ['0', ' ', '0', '\n']⟩], [⟨"a.bvec", ['1', '\n']⟩]⟩,
         ⟨"in/DTI_2", [⟨"b.nii.gz", []⟩],
          [⟨"b.bval", ['5', '\n']⟩], [⟨"b.bvec", ['2', '\n', '3', '\n']⟩]⟩]
        "sub-01" =
      MergeResult.ok
        (some ⟨"sub-01" ++ "_dwi",
               ((⟨[⟨"a.nii.gz", []⟩, ⟨"b.nii.gz", []⟩],
                  [⟨"a.bval", ['0', ' ', '0', '\n']⟩, ⟨"b.bval", ['5', '\n']⟩],
                  [⟨"a.bvec", ['1', '\n']⟩, ⟨"b.bvec", ['2', '\n', '3', '\n']⟩],
                  []⟩ : ScanAcc).bvals.map SrcFile.content).flatten,
               ((⟨[⟨"a.nii.gz", []⟩, ⟨"b.nii.gz", []⟩],
                  [⟨"a.bval", ['0', ' ', '0', '\n']⟩, ⟨"b.bval", ['5', '\n']⟩],
                  [⟨"a.bvec", ['1', '\n']⟩, ⟨"b.bvec", ['2', '\n', '3', '\n']⟩],
                  []⟩ : ScanAcc).bvecs.map SrcFile.content).flatten,
               (⟨[⟨"a.nii.gz", []⟩, ⟨"b.nii.gz", []⟩],
                 [⟨"a.bval", ['0', ' ', '0', '\n']⟩, ⟨"b.bval", ['5', '\n']⟩],
                 [⟨"a.bvec", ['1', '\n']⟩, ⟨"b.bvec", ['2', '\n', '3', '\n']⟩],
                 []⟩ : ScanAcc).imgs.map SrcFile.name⟩) r) ∧
    countNL (((⟨[⟨"a.nii.gz", []⟩, ⟨"b.nii.gz", []⟩],
                [⟨"a.bval", ['0', ' ', '0', '\n']⟩, ⟨"b.bval", ['5', '\n']⟩],
                [⟨"a.bvec", ['1', '\n']⟩, ⟨"b.bvec", ['2', '\n', '3', '\n']⟩],
                []⟩ : ScanAcc).bvals.map SrcFile.content).flatten) =
      ((⟨[⟨"a.nii.gz", []⟩, ⟨"b.nii.gz", []⟩],
         [⟨"a.bval", ['0', ' ', '0', '\n']⟩, ⟨"b.bval", ['5', '\n']⟩],
         [⟨"a.bvec", ['1', '\n']⟩, ⟨"b.bvec", ['2', '\n', '3', '\n']⟩],
         []⟩ : ScanAcc).bvals.map (fun f => countNL f.content)).sum ∧
    countNL (((⟨[⟨"a.nii.gz", []⟩, ⟨"b.nii.gz", []⟩],
                [⟨"a.bval", ['0', ' ', '0', '\n']⟩, ⟨"b.bval", ['5', '\n']⟩],
                [⟨"a.bvec", ['1', '\n']⟩, ⟨"b.bvec", ['2', '\n', '3', '\n']⟩],
                []⟩ : ScanAcc).bvecs.map SrcFile.content).flatten) =
      ((⟨[⟨"a.nii.gz", []⟩, ⟨"b.nii.gz", []⟩],
         [⟨"a.bval", ['0', ' ', '0', '\n']⟩, ⟨"b.bval", ['5', '\n']⟩],
         [⟨"a.bvec", ['1', '\n']⟩, ⟨"b.bvec", ['2', '\n', '3', '\n']⟩],
         []⟩ : ScanAcc).bvecs.map (fun f => countNL f.content)).sum :=
  merge_DTI_bval_concatenation
    [⟨"in/DTI_1", [⟨"a.nii.gz", []⟩],
      [⟨"a.bval", ['0', ' ', '0', '\n']⟩], [⟨"a.bvec", ['1', '\n']⟩]⟩,
     ⟨"in/DTI_2", [⟨"b.nii.gz", []⟩],
      [⟨"b.bval", ['5', '\n']⟩], [⟨"b.bvec", ['2', '\n', '3', '\n']⟩]⟩]
    "sub-01"
    ⟨[⟨"a.nii.gz", []⟩, ⟨"b.nii.gz", []⟩],
     [⟨"a.bval", ['0', ' ', '0', '\n']⟩, ⟨"b.bval", ['5', '\n']⟩],
     [⟨"a.bvec", ['1', '\n']⟩, ⟨"b.bvec", ['2', '\n', '3', '\n']⟩],
     []⟩
    (by decide) (by rfl) (by decide)
